import Mathlib

/-!
Shallow embedding of the client-side API layer of the HuntingExoPlanets
frontend: the response data model of frontend/lib/types.ts, the substitute
data generators of lib/mocks.ts, the degradation wrapper of lib/api.ts, the
CSV export helpers of lib/utils.ts, and the browser-local-storage round
trip used by the classify and explanations pages.

Modelling conventions:
  - JS numbers are embedded as rationals.
  - Each call to Math.random is one draw from an explicit source
    rng : Nat -> Rat, indexed by draw position.
  - A promise that resolves is Except.ok, a promise that rejects is
    Except.error.
  - JS object literals are also given a layout view: a JVal tree whose
    object key lists record the literal key insertion order, so that key
    parity with the declared response types can be stated.
-/

/-- The three classification classes of types.ts. -/
inductive PredictionClass where
  | confirmed
  | candidate
  | false_positive
deriving DecidableEq, Repr

/-- The string carried by a PredictionClass value in JS. -/
def classString : PredictionClass → String
  | .confirmed => "confirmed"
  | .candidate => "candidate"
  | .false_positive => "false_positive"

/-- Partial inverse of classString on the three class strings. -/
def classOfString : String → Option PredictionClass
  | "confirmed" => some .confirmed
  | "candidate" => some .candidate
  | "false_positive" => some .false_positive
  | _ => none

/-- The Mission union type of types.ts. -/
inductive Mission where
  | kepler
  | k2
  | tess
deriving DecidableEq, Repr

/-- The string carried by a Mission value in JS. -/
def missionString : Mission → String
  | .kepler => "kepler"
  | .k2 => "k2"
  | .tess => "tess"

/-- Metrics record of types.ts. -/
structure Metrics where
  accuracy : ℚ
  «precision» : ℚ
  «recall» : ℚ
  f1 : ℚ
deriving DecidableEq, Repr

/-- ModelInfo record of types.ts. -/
structure ModelInfo where
  id : String
  name : String
  metrics : Metrics
deriving DecidableEq, Repr

/-- HealthResponse record of types.ts. -/
structure HealthResponse where
  status : String
  last_ingest_iso : String
deriving DecidableEq, Repr

/-- The probabilities record inside PredictResponse of types.ts. -/
structure Probabilities where
  confirmed : ℚ
  candidate : ℚ
  false_positive : ℚ
deriving DecidableEq, Repr

/-- One SHAP entry: feature, value, contribution. -/
structure ShapEntry where
  feature : String
  value : ℚ
  contribution : ℚ
deriving DecidableEq, Repr

/-- PredictResponse record of types.ts; shap and rationale are optional. -/
structure PredictResponse where
  prediction : PredictionClass
  probabilities : Probabilities
  shap : Option (List ShapEntry)
  rationale : Option String
deriving DecidableEq, Repr

/-- MetricsResponse record of types.ts; perModel is a string-keyed record. -/
structure MetricsResponse where
  overall : Metrics
  perModel : List (String × Metrics)
  confusionMatrix : List (List ℚ)
deriving DecidableEq, Repr

/-- One entry of FeaturesResponse.importances in types.ts. -/
structure FeatureImportance where
  name : String
  importance : ℚ
deriving DecidableEq, Repr

/-- FeaturesResponse record of types.ts. -/
structure FeaturesResponse where
  importances : List FeatureImportance
deriving DecidableEq, Repr

/-- DatasetRow record of types.ts. -/
structure DatasetRow where
  id : String
  mission : Mission
  orbital_period_days : ℚ
  transit_duration_hours : ℚ
  planetary_radius_re : ℚ
  transit_depth_ppm : ℚ
  teff_k : ℚ
  rstar_rs : ℚ
  logg : ℚ
  feh : ℚ
  label : PredictionClass
deriving DecidableEq, Repr

/-- The optional classCounts record of DatasetResponse in types.ts. -/
structure ClassCounts where
  confirmed : ℕ
  candidate : ℕ
  false_positive : ℕ
deriving DecidableEq, Repr

/-- DatasetResponse record of types.ts; classCounts is optional. -/
structure DatasetResponse where
  rows : List DatasetRow
  total : ℕ
  classCounts : Option ClassCounts
deriving DecidableEq, Repr

/-- ShapSample record of types.ts. -/
structure ShapSample where
  id : String
  shap : List ShapEntry
deriving DecidableEq, Repr

/-- A JS feature record: string keys mapped to numbers, in insertion order. -/
def FeatureRecord := List (String × ℚ)

/-- PredictBody record of types.ts. -/
structure PredictBody where
  modelId : Option String
  features : FeatureRecord

/-- An explicit source for Math.random draws: draw index to drawn value. -/
def Rng := ℕ → ℚ

/-! ### Substitute data of lib/mocks.ts -/

/-- mockHealth of mocks.ts: status ok with the ISO timestamp computed from
the load-time clock minus 24 hours; the clock-derived string is a
parameter. -/
def mockHealth (lastIngestIso : String) : HealthResponse :=
  { status := "ok", last_ingest_iso := lastIngestIso }

/-- mockModels of mocks.ts, transcribed literal by literal. -/
def mockModels : List ModelInfo :=
  [ { id := "stacking", name := "Stacking Ensemble",
      metrics := { accuracy := 0.87, «precision» := 0.85, «recall» := 0.86, f1 := 0.85 } }
  , { id := "random_forest", name := "Random Forest",
      metrics := { accuracy := 0.85, «precision» := 0.83, «recall» := 0.84, f1 := 0.83 } }
  , { id := "extra_trees", name := "Extra Trees",
      metrics := { accuracy := 0.84, «precision» := 0.82, «recall» := 0.83, f1 := 0.82 } }
  , { id := "random_subspace", name := "Random Subspace",
      metrics := { accuracy := 0.83, «precision» := 0.81, «recall» := 0.82, f1 := 0.81 } }
  , { id := "adaboost", name := "AdaBoost",
      metrics := { accuracy := 0.82, «precision» := 0.80, «recall» := 0.81, f1 := 0.80 } } ]

/-- mockMetrics of mocks.ts. -/
def mockMetrics : MetricsResponse :=
  { overall := { accuracy := 0.85, «precision» := 0.83, «recall» := 0.84, f1 := 0.83 }
  , perModel :=
      [ ("stacking", { accuracy := 0.87, «precision» := 0.85, «recall» := 0.86, f1 := 0.85 })
      , ("random_forest", { accuracy := 0.85, «precision» := 0.83, «recall» := 0.84, f1 := 0.83 })
      , ("extra_trees", { accuracy := 0.84, «precision» := 0.82, «recall» := 0.83, f1 := 0.82 })
      , ("random_subspace", { accuracy := 0.83, «precision» := 0.81, «recall» := 0.82, f1 := 0.81 })
      , ("adaboost", { accuracy := 0.82, «precision» := 0.80, «recall» := 0.81, f1 := 0.80 }) ]
  , confusionMatrix := [[1200, 85, 45], [78, 950, 32], [42, 28, 800]] }

/-- mockFeatures of mocks.ts. -/
def mockFeatures : FeaturesResponse :=
  { importances :=
      [ { name := "orbital_period_days", importance := 0.24 }
      , { name := "transit_depth_ppm", importance := 0.22 }
      , { name := "planetary_radius_re", importance := 0.18 }
      , { name := "transit_duration_hours", importance := 0.16 }
      , { name := "teff_k", importance := 0.12 }
      , { name := "rstar_rs", importance := 0.08 }
      , { name := "logg", importance := 0.06 }
      , { name := "feh", importance := 0.04 } ] }

/-- mockPredict of mocks.ts: the static canned prediction. -/
def mockPredict : PredictResponse :=
  { prediction := .confirmed
  , probabilities := { confirmed := 0.72, candidate := 0.23, false_positive := 0.05 }
  , shap := some
      [ { feature := "orbital_period_days", value := 365.25, contribution := 0.15 }
      , { feature := "transit_depth_ppm", value := 1200, contribution := 0.12 }
      , { feature := "planetary_radius_re", value := 1.2, contribution := 0.08 }
      , { feature := "transit_duration_hours", value := 13.5, contribution := 0.06 }
      , { feature := "teff_k", value := 5778, contribution := 0.04 }
      , { feature := "rstar_rs", value := 1.0, contribution := 0.02 }
      , { feature := "logg", value := 4.44, contribution := 0.01 }
      , { feature := "feh", value := 0.0, contribution := 0.00 } ]
  , rationale := some "Strong transit signal with Earth-like orbital period and reasonable planetary radius. Transit depth and duration are consistent with a confirmed exoplanet." }

/-- The fixed label 3-cycle of generateMockDatasetRow. -/
def mockLabels : List PredictionClass := [.confirmed, .candidate, .false_positive]

/-- The fixed mission 3-cycle used when building mockDataset. -/
def mockMissions : List Mission := [.kepler, .k2, .tess]

/-- generateMockDatasetRow of mocks.ts: one synthetic row for a given id and
mission; the eight Math.random draws come from rng at indices 0..7, and the
label is the labels array indexed by id mod 3. -/
def generateMockDatasetRow (rng : Rng) (id : ℕ) (mission : Mission) : DatasetRow :=
  { id := "mock-" ++ toString id
  , mission := mission
  , orbital_period_days := rng 0 * 500 + 1
  , transit_duration_hours := rng 1 * 20 + 1
  , planetary_radius_re := rng 2 * 10 + 0.1
  , transit_depth_ppm := rng 3 * 5000 + 100
  , teff_k := rng 4 * 4000 + 3000
  , rstar_rs := rng 5 * 2 + 0.5
  , logg := rng 6 * 2 + 4
  , feh := rng 7 * 1 - 0.5
  , label := mockLabels.getD (id % 3) .confirmed }

/-- The Array.from row-building pattern of mockDataset, generalised over the
requested length n: row i takes mission missions at i mod 3 and its eight
random draws from rng at indices 8 i .. 8 i + 7. -/
def mockRows (rng : Rng) (n : ℕ) : List DatasetRow :=
  (List.range n).map fun i =>
    generateMockDatasetRow (fun j => rng (8 * i + j)) i (mockMissions.getD (i % 3) .kepler)

/-- mockDataset of mocks.ts: 100 generated rows, total 100, no classCounts. -/
def mockDataset (rng : Rng) : DatasetResponse :=
  { rows := mockRows rng 100, total := 100, classCounts := none }

/-- mockShapSample of mocks.ts: 10 samples, each with one SHAP entry per
mockFeatures importance, with two random draws per entry. -/
def mockShapSample (rng : Rng) : List ShapSample :=
  (List.range 10).map fun i =>
    { id := "shap-" ++ toString i
    , shap := mockFeatures.importances.enum.map fun p =>
        { feature := p.2.name
        , value := rng (2 * (8 * i + p.1)) * 1000
        , contribution := (rng (2 * (8 * i + p.1) + 1) - 0.5) * 0.3 } }

/-- JS property access with the or-zero guard of mockPredictWithFeatures:
a missing key, like a zero value, reads as 0. -/
def featOr0 (features : FeatureRecord) (k : String) : ℚ :=
  ((features.lookup k).getD 0)

/-- Left-pad a digit string with zeros to length d, as needed to print the
fractional part of a fixed-point number. -/
def padZeroLeft (d : ℕ) (s : String) : String :=
  String.mk (List.replicate (d - s.length) '0') ++ s

/-- Model of Number.prototype.toFixed on rationals: round to d decimal
digits (half away from even float noise is ignored; plain round is used)
and print with exactly d digits after the point. -/
def fmtFixed (q : ℚ) (d : ℕ) : String :=
  let scaled : ℤ := round (q * (10 : ℚ) ^ d)
  let sign := if scaled < 0 then "-" else ""
  let n := scaled.natAbs
  if d = 0 then sign ++ toString n
  else sign ++ toString (n / 10 ^ d) ++ "." ++ padZeroLeft d (toString (n % 10 ^ d))

/-- The rationale template string of mockPredictWithFeatures. -/
def mkRationale (period depth radius : ℚ) : String :=
  "Based on orbital period of " ++ fmtFixed period 1 ++ " days, transit depth of "
    ++ fmtFixed depth 0 ++ " ppm, and planetary radius of " ++ fmtFixed radius 1
    ++ " Earth radii."

/-- mockPredictWithFeatures of mocks.ts: the heuristic substitute classifier.
Each SHAP contribution consumes one random draw, indexed by the position of
the feature in the record. -/
def mockPredictWithFeatures (rng : Rng) (features : FeatureRecord) : PredictResponse :=
  let period := featOr0 features "orbital_period_days"
  let depth := featOr0 features "transit_depth_ppm"
  let radius := featOr0 features "planetary_radius_re"
  let chosen : PredictionClass × Probabilities :=
    if depth > 1000 ∧ radius > 0.5 ∧ period > 10 ∧ period < 1000 then
      (.confirmed, { confirmed := 0.75, candidate := 0.20, false_positive := 0.05 })
    else if depth > 500 ∧ radius > 0.3 then
      (.candidate, { confirmed := 0.30, candidate := 0.60, false_positive := 0.10 })
    else
      (.false_positive, { confirmed := 0.10, candidate := 0.20, false_positive := 0.70 })
  { prediction := chosen.1
  , probabilities := chosen.2
  , shap := some (features.enum.map fun p =>
      { feature := p.2.1, value := p.2.2, contribution := (rng p.1 - 0.5) * 0.2 })
  , rationale := some (mkRationale period depth radius) }

/-! ### Transport client and degradation wrapper of lib/api.ts -/

/-- The ways a transport call can fail: network error, non-2xx status, or
the axios timeout. -/
inductive TransportError where
  | network
  | status (code : ℕ)
  | timeout
deriving DecidableEq, Repr

/-- The outcome of the single HTTP attempt an operation makes. -/
def TransportResult (α : Type) := Except TransportError α

/-- The axios instance configuration of api.ts. -/
structure AxiosConfig where
  baseURL : String
  timeoutMs : ℕ
  contentType : String
deriving Repr

/-- DEFAULT_BACKEND_URL of lib/constants.ts. -/
def DEFAULT_BACKEND_URL : String := "http://localhost:8000"

/-- API_BASE_URL of api.ts: the environment variable when set, else the
default localhost value. -/
def API_BASE_URL (envBackendUrl : Option String) : String :=
  envBackendUrl.getD DEFAULT_BACKEND_URL

/-- The axios.create call of api.ts: base URL, 10000 ms timeout, JSON
content type. -/
def api (envBackendUrl : Option String) : AxiosConfig :=
  { baseURL := API_BASE_URL envBackendUrl
  , timeoutMs := 10000
  , contentType := "application/json" }

/-- handleApiError of api.ts: log, toast, and return the fallback value.
The log and toast are side effects outside the value model. -/
def handleApiError (_error : TransportError) (fallbackData : α) : α :=
  fallbackData

/-- The try/catch shape shared by the degrading operations of apiClient:
pass a resolved response through, and on any transport failure resolve with
handleApiError applied to the fallback. -/
def withFallback (attempt : TransportResult α) (fallbackData : α) :
    Except TransportError α :=
  match attempt with
  | .ok response => .ok response
  | .error e => .ok (handleApiError e fallbackData)

/-- The parameter object of apiClient.getDataset. -/
structure DatasetParams where
  mission : Option Mission := none
  page : Option ℕ := none
  limit : Option ℕ := none
  search : Option String := none

/-- An opaque CSV byte stream; predictCSV resolves with one on success. -/
structure Blob where
  bytes : List ℕ
deriving DecidableEq, Repr

namespace apiClient

/-- apiClient.getHealth: resolve with the live body, else with mockHealth. -/
def getHealth (lastIngestIso : String) (attempt : TransportResult HealthResponse) :
    Except TransportError HealthResponse :=
  withFallback attempt (mockHealth lastIngestIso)

/-- apiClient.getModels: resolve with the live body, else with mockModels. -/
def getModels (attempt : TransportResult (List ModelInfo)) :
    Except TransportError (List ModelInfo) :=
  withFallback attempt mockModels

/-- apiClient.getMetrics: resolve with the live body, else with mockMetrics. -/
def getMetrics (attempt : TransportResult MetricsResponse) :
    Except TransportError MetricsResponse :=
  withFallback attempt mockMetrics

/-- apiClient.getFeatures: resolve with the live body, else with
mockFeatures. -/
def getFeatures (attempt : TransportResult FeaturesResponse) :
    Except TransportError FeaturesResponse :=
  withFallback attempt mockFeatures

/-- apiClient.predict: resolve with the live body, else with the heuristic
substitute computed from the request features. -/
def predict (rng : Rng) (data : PredictBody) (attempt : TransportResult PredictResponse) :
    Except TransportError PredictResponse :=
  match attempt with
  | .ok response => .ok response
  | .error e => .ok (handleApiError e (mockPredictWithFeatures rng data.features))

/-- The fallback body built in the catch branch of apiClient.getDataset:
the mock rows filtered by mission when one is given, with total set to the
filtered length. -/
def datasetFallback (rng : Rng) (params : DatasetParams) : DatasetResponse :=
  let filteredRows :=
    match params.mission with
    | some m => (mockDataset rng).rows.filter fun row => row.mission = m
    | none => (mockDataset rng).rows
  { rows := filteredRows, total := filteredRows.length, classCounts := none }

/-- apiClient.getDataset: resolve with the live body, else with the
mission-filtered mock dataset. -/
def getDataset (rng : Rng) (params : DatasetParams)
    (attempt : TransportResult DatasetResponse) :
    Except TransportError DatasetResponse :=
  match attempt with
  | .ok response => .ok response
  | .error e => .ok (handleApiError e (datasetFallback rng params))

/-- apiClient.getShapSample: resolve with the live body, else with
mockShapSample. -/
def getShapSample (rng : Rng) (attempt : TransportResult (List ShapSample)) :
    Except TransportError (List ShapSample) :=
  withFallback attempt (mockShapSample rng)

/-- apiClient.predictCSV: resolve with the live blob; the catch branch logs
and rethrows the error, so a failed attempt stays a rejection. -/
def predictCSV (attempt : TransportResult Blob) : Except TransportError Blob :=
  match attempt with
  | .ok response => .ok response
  | .error e => .error e

end apiClient

/-- An instrumented invocation: the operation body consumes the outcome of
exactly one transport attempt, so running it bumps the attempt counter by
one and applies the operation to that single outcome. -/
def invokeOnce (op : TransportResult α → Except TransportError β)
    (transport : ℕ → TransportResult α) (calls : ℕ) :
    ℕ × Except TransportError β :=
  (calls + 1, op (transport calls))

/-! ### CSV export of lib/utils.ts (two shipped variants) -/

/-- A data row passed to downloadCSV: a JS object seen as its ordered list
of key and stringified-value pairs, as Object.keys and Object.values
enumerate it. -/
def CellRow := List (String × String)

/-- JS member access row with bracket h inside the Array join: a present key
yields its value, a missing key yields undefined, which Array.join prints
as the empty string. -/
def lookupCell (row : CellRow) (h : String) : String :=
  ((List.lookup h row).getD "")

/-- The header list of the first downloadCSV variant: Object.keys of the
first row, or of the empty object when indexing misses. -/
def csvHeaders (data : List CellRow) : List String :=
  (data.headD []).map Prod.fst

/-- The line array the first downloadCSV variant builds before joining with
newlines: the joined headers, then one line per row whose cells are read by
header key in header order. -/
def csvLines (data : List CellRow) : List String :=
  String.intercalate "," (csvHeaders data)
    :: data.map fun row =>
      String.intercalate "," ((csvHeaders data).map (lookupCell row))

/-- The CSV text of the first downloadCSV variant. -/
def csvOf (data : List CellRow) : String :=
  String.intercalate "\n" (csvLines data)

/-- The observable browser actions a download triggers. -/
inductive BrowserEffect where
  | download (filename : String) (content : String)
deriving DecidableEq, Repr

/-- A thrown JS runtime error, such as reading a property of undefined. -/
inductive JsError where
  | typeError
deriving DecidableEq, Repr

/-- The first downloadCSV variant of lib/utils.ts: a null, undefined, or
empty data argument hits the early-return guard and nothing happens;
otherwise the CSV is built and one download is triggered. The input is an
Option to cover the null and undefined arguments. -/
def downloadCSV (data : Option (List CellRow)) (filename : String) :
    Except JsError (List BrowserEffect) :=
  match data with
  | none => .ok []
  | some rows =>
    if rows.length = 0 then .ok []
    else .ok [.download filename (csvOf rows)]

/-- The line array of the second downloadCSV variant: the joined keys of the
first row, then for each row the join of Object.values of that row, in the
rows own key order. -/
def csvLinesSecond (data : List CellRow) : List String :=
  String.intercalate "," ((data.headD []).map Prod.fst)
    :: data.map fun row => String.intercalate "," (row.map Prod.snd)

/-- The CSV text of the second downloadCSV variant. -/
def csvOfSecond (data : List CellRow) : String :=
  String.intercalate "\n" (csvLinesSecond data)

/-- The second downloadCSV variant of lib/utils.ts: it has no guard, so
Object.keys of data bracket 0 throws a TypeError on a null, undefined, or
empty argument; otherwise the CSV is built and one download triggered. -/
def downloadCSVSecond (data : Option (List CellRow)) (filename : String) :
    Except JsError (List BrowserEffect) :=
  match data with
  | none => .error .typeError
  | some [] => .error .typeError
  | some rows => .ok [.download filename (csvOfSecond rows)]

/-! ### JS object layout view, for key parity with types.ts -/

/-- A JSON-like value tree; object fields keep literal insertion order. -/
inductive JVal where
  | num (q : ℚ)
  | str (s : String)
  | arr (elems : List JVal)
  | obj (fields : List (String × JVal))

/-- The top-level key list of a JS object value; non-objects have none. -/
def JVal.keys : JVal → List String
  | .obj fields => fields.map Prod.fst
  | _ => []

/-- Layout of a Metrics value, in the field order of the mock literals. -/
def Metrics.toJ (m : Metrics) : JVal :=
  .obj [("accuracy", .num m.accuracy), ("precision", .num m.«precision»),
        ("recall", .num m.«recall»), ("f1", .num m.f1)]

/-- Layout of a ModelInfo value. -/
def ModelInfo.toJ (m : ModelInfo) : JVal :=
  .obj [("id", .str m.id), ("name", .str m.name), ("metrics", m.metrics.toJ)]

/-- Layout of a HealthResponse value. -/
def HealthResponse.toJ (h : HealthResponse) : JVal :=
  .obj [("status", .str h.status), ("last_ingest_iso", .str h.last_ingest_iso)]

/-- Layout of a Probabilities value. -/
def Probabilities.toJ (p : Probabilities) : JVal :=
  .obj [("confirmed", .num p.confirmed), ("candidate", .num p.candidate),
        ("false_positive", .num p.false_positive)]

/-- Layout of a ShapEntry value. -/
def ShapEntry.toJ (e : ShapEntry) : JVal :=
  .obj [("feature", .str e.feature), ("value", .num e.value),
        ("contribution", .num e.contribution)]

/-- Layout of a PredictResponse value: JSON.stringify drops the optional
keys exactly when they are absent. -/
def PredictResponse.toJ (p : PredictResponse) : JVal :=
  .obj ([("prediction", .str (classString p.prediction)),
         ("probabilities", p.probabilities.toJ)]
    ++ (match p.shap with
        | some entries => [("shap", .arr (entries.map ShapEntry.toJ))]
        | none => [])
    ++ (match p.rationale with
        | some s => [("rationale", .str s)]
        | none => []))

/-- Layout of a MetricsResponse value. -/
def MetricsResponse.toJ (m : MetricsResponse) : JVal :=
  .obj [("overall", m.overall.toJ),
        ("perModel", .obj (m.perModel.map fun p => (p.1, p.2.toJ))),
        ("confusionMatrix", .arr (m.confusionMatrix.map fun r => .arr (r.map .num)))]

/-- Layout of one FeaturesResponse importance entry. -/
def FeatureImportance.toJ (f : FeatureImportance) : JVal :=
  .obj [("name", .str f.name), ("importance", .num f.importance)]

/-- Layout of a FeaturesResponse value. -/
def FeaturesResponse.toJ (f : FeaturesResponse) : JVal :=
  .obj [("importances", .arr (f.importances.map FeatureImportance.toJ))]

/-- Layout of a DatasetRow value, in the field order of the row literal in
generateMockDatasetRow, which matches the declared order of types.ts. -/
def DatasetRow.toJ (r : DatasetRow) : JVal :=
  .obj [("id", .str r.id), ("mission", .str (missionString r.mission)),
        ("orbital_period_days", .num r.orbital_period_days),
        ("transit_duration_hours", .num r.transit_duration_hours),
        ("planetary_radius_re", .num r.planetary_radius_re),
        ("transit_depth_ppm", .num r.transit_depth_ppm),
        ("teff_k", .num r.teff_k), ("rstar_rs", .num r.rstar_rs),
        ("logg", .num r.logg), ("feh", .num r.feh),
        ("label", .str (classString r.label))]

/-- Layout of a ClassCounts value. -/
def ClassCounts.toJ (c : ClassCounts) : JVal :=
  .obj [("confirmed", .num c.confirmed), ("candidate", .num c.candidate),
        ("false_positive", .num c.false_positive)]

/-- Layout of a DatasetResponse value; the optional classCounts key is
present exactly when the value carries one. -/
def DatasetResponse.toJ (d : DatasetResponse) : JVal :=
  .obj ([("rows", .arr (d.rows.map DatasetRow.toJ)), ("total", .num d.total)]
    ++ (match d.classCounts with
        | some c => [("classCounts", c.toJ)]
        | none => []))

/-- Layout of a ShapSample value. -/
def ShapSample.toJ (s : ShapSample) : JVal :=
  .obj [("id", .str s.id), ("shap", .arr (s.shap.map ShapEntry.toJ))]

/-! ### Declared field sets of frontend/lib/types.ts -/

/-- Required keys of HealthResponse. -/
def healthResponseKeys : List String := ["status", "last_ingest_iso"]

/-- Required keys of Metrics. -/
def metricsKeys : List String := ["accuracy", "precision", "recall", "f1"]

/-- Required keys of ModelInfo. -/
def modelInfoKeys : List String := ["id", "name", "metrics"]

/-- Required keys of PredictResponse. -/
def predictResponseRequiredKeys : List String := ["prediction", "probabilities"]

/-- Optional keys of PredictResponse. -/
def predictResponseOptionalKeys : List String := ["shap", "rationale"]

/-- Keys of the probabilities record of PredictResponse. -/
def probabilitiesKeys : List String := ["confirmed", "candidate", "false_positive"]

/-- Keys of one shap entry of PredictResponse and ShapSample. -/
def shapEntryKeys : List String := ["feature", "value", "contribution"]

/-- Required keys of MetricsResponse. -/
def metricsResponseKeys : List String := ["overall", "perModel", "confusionMatrix"]

/-- Required keys of FeaturesResponse. -/
def featuresResponseKeys : List String := ["importances"]

/-- Keys of one importances entry of FeaturesResponse. -/
def featureImportanceKeys : List String := ["name", "importance"]

/-- Required keys of DatasetRow. -/
def datasetRowKeys : List String :=
  ["id", "mission", "orbital_period_days", "transit_duration_hours",
   "planetary_radius_re", "transit_depth_ppm", "teff_k", "rstar_rs",
   "logg", "feh", "label"]

/-- Required keys of DatasetResponse. -/
def datasetResponseRequiredKeys : List String := ["rows", "total"]

/-- Optional keys of DatasetResponse. -/
def datasetResponseOptionalKeys : List String := ["classCounts"]

/-- Required keys of ShapSample. -/
def shapSampleKeys : List String := ["id", "shap"]

/-! ### Browser-local storage round trip of the classify and explanations
pages: JSON.stringify and JSON.parse are modelled at the token level, so
that the structural content of the serialised text is kept while character
escaping and number printing are abstracted. -/

/-- One token of the serialised JSON text. A key token stands for a quoted
key followed by a colon. -/
inductive JTok where
  | objStart
  | objEnd
  | arrStart
  | arrEnd
  | key (s : String)
  | jstr (s : String)
  | jnum (q : ℚ)
deriving DecidableEq, Repr

/-- Browser-local storage: string keys mapped to stored texts, most recent
write first, last writer wins. -/
def LocalStorage := List (String × List JTok)

/-- localStorage.setItem: overwrite the entry for the key. -/
def setItem (store : LocalStorage) (k : String) (v : List JTok) : LocalStorage :=
  (k, v) :: store

/-- localStorage.getItem: the most recent value stored under the key. -/
def getItem (store : LocalStorage) (k : String) : Option (List JTok) :=
  List.lookup k store

/-- The object handleViewExplanations persists: the submitted features, the
prediction result, and an ISO timestamp. -/
structure StoredClassification where
  features : FeatureRecord
  result : PredictResponse
  timestamp : String

/-- Serialisation of the features record: one key and number token pair per
entry, in insertion order. -/
def encodeFeaturePairs (fs : FeatureRecord) : List JTok :=
  (fs.map fun p => [JTok.key p.1, JTok.jnum p.2]).flatten

/-- Serialisation of one SHAP entry. -/
def encodeShapEntry (e : ShapEntry) : List JTok :=
  [.objStart, .key "feature", .jstr e.feature, .key "value", .jnum e.value,
   .key "contribution", .jnum e.contribution, .objEnd]

/-- Serialisation of a PredictResponse, with the optional keys emitted
exactly when present, in the declared key order. -/
def encodeResult (r : PredictResponse) : List JTok :=
  [.objStart, .key "prediction", .jstr (classString r.prediction),
   .key "probabilities", .objStart,
   .key "confirmed", .jnum r.probabilities.confirmed,
   .key "candidate", .jnum r.probabilities.candidate,
   .key "false_positive", .jnum r.probabilities.false_positive, .objEnd]
  ++ (match r.shap with
      | some entries => [JTok.key "shap", JTok.arrStart]
          ++ (entries.map encodeShapEntry).flatten ++ [JTok.arrEnd]
      | none => [])
  ++ (match r.rationale with
      | some s => [JTok.key "rationale", JTok.jstr s]
      | none => [])
  ++ [JTok.objEnd]

/-- JSON.stringify of the persisted object, with its three keys in literal
order: features, result, timestamp. -/
def encodeStored (c : StoredClassification) : List JTok :=
  [JTok.objStart, JTok.key "features", JTok.objStart]
    ++ encodeFeaturePairs c.features
    ++ [JTok.objEnd, JTok.key "result"]
    ++ encodeResult c.result
    ++ [JTok.key "timestamp", JTok.jstr c.timestamp, JTok.objEnd]

/-- Parse the entries of the features object up to its closing brace. -/
def parseFeaturePairs : List JTok → Option (FeatureRecord × List JTok)
  | .objEnd :: rest => some ([], rest)
  | .key k :: .jnum v :: rest =>
    (parseFeaturePairs rest).map fun p => ((k, v) :: p.1, p.2)
  | _ => none

/-- Parse the elements of the shap array up to its closing bracket. -/
def parseShapEntries : List JTok → Option (List ShapEntry × List JTok)
  | .arrEnd :: rest => some ([], rest)
  | .objStart :: .key "feature" :: .jstr f :: .key "value" :: .jnum v ::
      .key "contribution" :: .jnum c :: .objEnd :: rest =>
    (parseShapEntries rest).map fun p =>
      ({ feature := f, value := v, contribution := c } :: p.1, p.2)
  | _ => none

/-- Parse the optional shap key of a result object. -/
def parseShapOpt : List JTok → Option (Option (List ShapEntry) × List JTok)
  | .key "shap" :: .arrStart :: rest =>
    (parseShapEntries rest).map fun p => (some p.1, p.2)
  | ts => some (none, ts)

/-- Parse the optional rationale key of a result object. -/
def parseRationaleOpt : List JTok → Option (Option String × List JTok)
  | .key "rationale" :: .jstr s :: rest => some (some s, rest)
  | ts => some (none, ts)

/-- Parse one serialised PredictResponse. -/
def parseResult (ts : List JTok) : Option (PredictResponse × List JTok) :=
  match ts with
  | .objStart :: .key "prediction" :: .jstr p :: .key "probabilities" ::
      .objStart :: .key "confirmed" :: .jnum a :: .key "candidate" :: .jnum b ::
      .key "false_positive" :: .jnum c :: .objEnd :: rest =>
    match classOfString p with
    | none => none
    | some pc =>
      match parseShapOpt rest with
      | none => none
      | some (sh, rest2) =>
        match parseRationaleOpt rest2 with
        | none => none
        | some (ra, rest3) =>
          match rest3 with
          | .objEnd :: rest4 =>
            some ({ prediction := pc,
                    probabilities := { confirmed := a, candidate := b, false_positive := c },
                    shap := sh, rationale := ra }, rest4)
          | _ => none
  | _ => none

/-- JSON.parse of the persisted object, down to the stored record shape the
explanations page reads. -/
def decodeStored (ts : List JTok) : Option StoredClassification :=
  match ts with
  | .objStart :: .key "features" :: .objStart :: rest =>
    match parseFeaturePairs rest with
    | none => none
    | some (fs, rest2) =>
      match rest2 with
      | .key "result" :: rest3 =>
        match parseResult rest3 with
        | none => none
        | some (r, rest4) =>
          match rest4 with
          | .key "timestamp" :: .jstr t :: .objEnd :: [] =>
            some { features := fs, result := r, timestamp := t }
          | _ => none
      | _ => none
  | _ => none

/-- The fixed storage key shared by the classify and explanations pages. -/
def lastClassificationKey : String := "lastClassification"

/-- handleViewExplanations of the classify page: stringify the
classification and store it under the fixed key. -/
def persistClassification (store : LocalStorage) (c : StoredClassification) :
    LocalStorage :=
  setItem store lastClassificationKey (encodeStored c)

/-- The explanations page read: getItem under the fixed key, then parse. -/
def readClassification (store : LocalStorage) : Option StoredClassification :=
  match getItem store lastClassificationKey with
  | none => none
  | some text => decodeStored text

/-- The first spec example input: depth 1200, radius 1.2, period 365. -/
def demoConfirmed : FeatureRecord :=
  [("transit_depth_ppm", 1200), ("planetary_radius_re", 1.2), ("orbital_period_days", 365)]

/-- The second spec example input: depth 600, radius 0.4, period 50. -/
def demoCandidate : FeatureRecord :=
  [("transit_depth_ppm", 600), ("planetary_radius_re", 0.4), ("orbital_period_days", 50)]

/-- The third spec example input: depth 100, radius 0.1, no period. -/
def demoFalsePositive : FeatureRecord :=
  [("transit_depth_ppm", 100), ("planetary_radius_re", 0.1)]

/-! ### Theorems -/

/-- Parsing the serialised feature pairs up to the closing brace recovers
the record and the remaining tokens. -/
theorem parseFeaturePairs_encode (fs : FeatureRecord) (rest : List JTok) :
    parseFeaturePairs (encodeFeaturePairs fs ++ (JTok.objEnd :: rest)) = some (fs, rest) := by
  induction fs with
  | nil => simp [encodeFeaturePairs, parseFeaturePairs]
  | cons p t ih =>
    simp [encodeFeaturePairs, parseFeaturePairs, List.flatten] at ih ⊢
    simp [ih]

/-- Parsing the serialised SHAP entries up to the closing bracket recovers
the list and the remaining tokens. -/
theorem parseShapEntries_encode (l : List ShapEntry) (rest : List JTok) :
    parseShapEntries ((l.map encodeShapEntry).flatten ++ (JTok.arrEnd :: rest))
      = some (l, rest) := by
  induction l with
  | nil => simp [parseShapEntries]
  | cons e t ih =>
    simp [encodeShapEntry, parseShapEntries, List.flatten] at ih ⊢
    simp [ih]

/-- classOfString inverts classString on every class. -/
theorem classOfString_classString (c : PredictionClass) :
    classOfString (classString c) = some c := by
  cases c <;> rfl

/-- Parsing a serialised PredictResponse recovers it and the remaining
tokens, whichever of the optional keys are present. -/
theorem parseResult_encode (r : PredictResponse) (rest : List JTok) :
    parseResult (encodeResult r ++ rest) = some (r, rest) := by
  rcases r with ⟨pc, probs, sh, ra⟩
  cases sh with
  | none =>
    cases ra with
    | none =>
      simp [encodeResult, parseResult, classOfString_classString, parseShapOpt, parseRationaleOpt]
    | some s =>
      simp [encodeResult, parseResult, classOfString_classString, parseShapOpt, parseRationaleOpt]
  | some entries =>
    cases ra with
    | none =>
      simp [encodeResult, parseResult, classOfString_classString, parseShapOpt,
        parseShapEntries_encode, parseRationaleOpt]
    | some s =>
      simp [encodeResult, parseResult, classOfString_classString, parseShapOpt,
        parseShapEntries_encode, parseRationaleOpt]

/-- Decoding a serialised stored classification recovers it exactly. -/
theorem decodeStored_encodeStored (c : StoredClassification) :
    decodeStored (encodeStored c) = some c := by
  rcases c with ⟨fs, r, t⟩
  simp [encodeStored, decodeStored, parseFeaturePairs_encode, parseResult_encode]

/-- C1 counterexample: the claim says every exposed operation, predictCSV
included, resolves with a substitute when the transport fails; but
predictCSV applied to a failed attempt rejects with that failure and
resolves with no value. -/
theorem predictCSV_rejects_on_failure :
    apiClient.predictCSV (Except.error TransportError.network)
      = Except.error TransportError.network ∧
    (apiClient.predictCSV (Except.error TransportError.network)).isOk = false := by
  exact ⟨rfl, rfl⟩

/-- C1 amended: on any transport failure the seven degrading operations,
getHealth, getModels, getMetrics, getFeatures, predict, getDataset and
getShapSample, resolve with their documented substitute values and never
reject; predictCSV alone propagates the failure to its caller. -/
theorem operations_absorb_transport_failures :
    ∀ (e : TransportError) (lastIngestIso : String) (rng : Rng)
      (data : PredictBody) (params : DatasetParams),
    apiClient.getHealth lastIngestIso (.error e) = .ok (mockHealth lastIngestIso)
  ∧ apiClient.getModels (.error e) = .ok mockModels
  ∧ apiClient.getMetrics (.error e) = .ok mockMetrics
  ∧ apiClient.getFeatures (.error e) = .ok mockFeatures
  ∧ apiClient.predict rng data (.error e) = .ok (mockPredictWithFeatures rng data.features)
  ∧ apiClient.getDataset rng params (.error e) = .ok (apiClient.datasetFallback rng params)
  ∧ apiClient.getShapSample rng (.error e) = .ok (mockShapSample rng)
  ∧ apiClient.predictCSV (.error e) = .error e := by
  intro e t rng data params
  exact ⟨rfl, rfl, rfl, rfl, rfl, rfl, rfl, rfl⟩

/-- C2: mockPredictWithFeatures is exactly the three-way threshold split of
the claim on depth, radius and period, with missing keys read as 0; the
three spec example inputs land in the three branches with the documented
probability triples, and each triple sums to exactly 1. -/
theorem mockPredictWithFeatures_case_split :
    (∀ (rng : Rng) (f : FeatureRecord),
      (if featOr0 f "transit_depth_ppm" > 1000 ∧ featOr0 f "planetary_radius_re" > 0.5
          ∧ featOr0 f "orbital_period_days" > 10 ∧ featOr0 f "orbital_period_days" < 1000 then
        (mockPredictWithFeatures rng f).prediction = .confirmed ∧
          (mockPredictWithFeatures rng f).probabilities = ⟨0.75, 0.20, 0.05⟩
      else if featOr0 f "transit_depth_ppm" > 500 ∧ featOr0 f "planetary_radius_re" > 0.3 then
        (mockPredictWithFeatures rng f).prediction = .candidate ∧
          (mockPredictWithFeatures rng f).probabilities = ⟨0.30, 0.60, 0.10⟩
      else
        (mockPredictWithFeatures rng f).prediction = .false_positive ∧
          (mockPredictWithFeatures rng f).probabilities = ⟨0.10, 0.20, 0.70⟩))
    ∧ (∀ rng : Rng,
        (mockPredictWithFeatures rng demoConfirmed).prediction = .confirmed ∧
        (mockPredictWithFeatures rng demoConfirmed).probabilities = ⟨0.75, 0.20, 0.05⟩ ∧
        (mockPredictWithFeatures rng demoCandidate).prediction = .candidate ∧
        (mockPredictWithFeatures rng demoCandidate).probabilities = ⟨0.30, 0.60, 0.10⟩ ∧
        (mockPredictWithFeatures rng demoFalsePositive).prediction = .false_positive ∧
        (mockPredictWithFeatures rng demoFalsePositive).probabilities = ⟨0.10, 0.20, 0.70⟩)
    ∧ ((0.75 : ℚ) + 0.20 + 0.05 = 1 ∧ (0.30 : ℚ) + 0.60 + 0.10 = 1
        ∧ (0.10 : ℚ) + 0.20 + 0.70 = 1) := by
  refine ⟨?_, ?_, by norm_num⟩
  · intro rng f
    split_ifs with h1 h2
    · simp only [mockPredictWithFeatures, if_pos h1]
      constructor <;> trivial
    · simp only [mockPredictWithFeatures, if_neg h1, if_pos h2]
      constructor <;> trivial
    · simp only [mockPredictWithFeatures, if_neg h1, if_neg h2]
      constructor <;> trivial
  · intro rng
    have e1 : featOr0 demoConfirmed "transit_depth_ppm" = 1200 := rfl
    have e2 : featOr0 demoConfirmed "planetary_radius_re" = 1.2 := rfl
    have e3 : featOr0 demoConfirmed "orbital_period_days" = 365 := rfl
    have e4 : featOr0 demoCandidate "transit_depth_ppm" = 600 := rfl
    have e5 : featOr0 demoCandidate "planetary_radius_re" = 0.4 := rfl
    have e6 : featOr0 demoCandidate "orbital_period_days" = 50 := rfl
    have e7 : featOr0 demoFalsePositive "transit_depth_ppm" = 100 := rfl
    have e8 : featOr0 demoFalsePositive "planetary_radius_re" = 0.1 := rfl
    have e9 : featOr0 demoFalsePositive "orbital_period_days" = 0 := rfl
    simp only [mockPredictWithFeatures, e1, e2, e3, e4, e5, e6, e7, e8, e9]
    norm_num

/-- C3: the row generator produces exactly n rows for any requested n, the
row at index i carries mission kepler, k2, tess cycling with i mod 3 and
label confirmed, candidate, false_positive cycling the same way, and the
shipped mock dataset instantiates this with 100 rows and total 100. -/
theorem mockRows_cycle :
    ∀ (rng : Rng) (n : ℕ),
    (mockRows rng n).length = n
  ∧ (∀ i, i < n →
      ((mockRows rng n)[i]?).map DatasetRow.mission
          = some (mockMissions.getD (i % 3) .kepler)
      ∧ ((mockRows rng n)[i]?).map DatasetRow.label
          = some (mockLabels.getD (i % 3) .confirmed))
  ∧ (mockDataset rng).rows.length = 100 ∧ (mockDataset rng).total = 100 := by
  intro rng n
  refine ⟨by simp [mockRows], ?_, by simp [mockDataset, mockRows], rfl⟩
  intro i hi
  constructor <;>
    simp [mockRows, List.getElem?_map, List.getElem?_range, hi, generateMockDatasetRow]

/-- C3 witness: three rows requested give three rows, and the row at
index 2 carries the tess mission. -/
theorem mockRows_cycle_witness :
    (mockRows (fun _ => 0) 3).length = 3
  ∧ ((mockRows (fun _ => 0) 3)[2]?).map DatasetRow.mission = some Mission.tess := by
  refine ⟨(mockRows_cycle (fun _ => 0) 3).1, ?_⟩
  have h := ((mockRows_cycle (fun _ => 0) 3).2.1 2 (by norm_num)).1
  simpa [mockMissions] using h

/-- C4: every fallback value carries exactly the declared field set of its
response type, per key and in declared order: health, models, metrics,
features, the computed predict substitute with both optional keys, the
dataset fallback with both required keys, every dataset row, every SHAP
sample and entry, and the static canned prediction. -/
theorem fallback_key_parity :
    (∀ t : String, (mockHealth t).toJ.keys = healthResponseKeys)
  ∧ mockModels.map (fun m => m.toJ.keys) = List.replicate 5 modelInfoKeys
  ∧ mockModels.map (fun m => m.metrics.toJ.keys) = List.replicate 5 metricsKeys
  ∧ mockMetrics.toJ.keys = metricsResponseKeys
  ∧ mockFeatures.toJ.keys = featuresResponseKeys
  ∧ mockFeatures.importances.map (fun f => f.toJ.keys)
      = List.replicate 8 featureImportanceKeys
  ∧ (∀ (rng : Rng) (f : FeatureRecord),
      (mockPredictWithFeatures rng f).toJ.keys
        = predictResponseRequiredKeys ++ predictResponseOptionalKeys)
  ∧ (∀ (rng : Rng) (f : FeatureRecord),
      (mockPredictWithFeatures rng f).probabilities.toJ.keys = probabilitiesKeys)
  ∧ (∀ (rng : Rng) (params : DatasetParams),
      (apiClient.datasetFallback rng params).toJ.keys = datasetResponseRequiredKeys)
  ∧ (∀ r : DatasetRow, r.toJ.keys = datasetRowKeys)
  ∧ (∀ rng : Rng, (mockShapSample rng).map (fun s => s.toJ.keys)
      = List.replicate 10 shapSampleKeys)
  ∧ (∀ e : ShapEntry, e.toJ.keys = shapEntryKeys)
  ∧ mockPredict.toJ.keys = predictResponseRequiredKeys ++ predictResponseOptionalKeys := by
  refine ⟨fun t => rfl, rfl, rfl, rfl, rfl, rfl, fun rng f => rfl, fun rng f => rfl,
    ?_, fun r => rfl, fun rng => rfl, fun e => rfl, rfl⟩
  intro rng params
  rcases params with ⟨mission, page, limit, search⟩
  cases mission <;> rfl

/-- C5: persisting a classification under the fixed key lastClassification
and reading it back through the explanations page path yields exactly the
stored features, result and timestamp, for every prior store content. -/
theorem localStorage_roundtrip :
    ∀ (store : LocalStorage) (c : StoredClassification),
    readClassification (persistClassification store c) = some c := by
  intro store c
  simp [readClassification, persistClassification, getItem, setItem,
    lastClassificationKey, List.lookup, decodeStored_encodeStored c]

/-- C6 counterexample: the claim says a timed-out call triggers the
substitute path; predictCSV on a timeout rejects instead of resolving with
a substitute. -/
theorem predictCSV_timeout_no_substitute :
    apiClient.predictCSV (Except.error TransportError.timeout)
      = Except.error TransportError.timeout ∧
    (apiClient.predictCSV (Except.error TransportError.timeout)).isOk = false := by
  exact ⟨rfl, rfl⟩

/-- C6 amended: the shared axios instance fixes a 10000 ms, that is
10 second, timeout for every base URL; every invocation consumes exactly
one transport attempt; a timeout makes each of the seven degrading
operations resolve with its substitute exactly once, and is handled
identically to any other failure, while predictCSV propagates it. -/
theorem timeout_single_attempt_fallback :
    (∀ envBackendUrl : Option String, (api envBackendUrl).timeoutMs = 10000)
  ∧ (api none).timeoutMs = 10 * 1000
  ∧ (∀ (α β : Type) (op : TransportResult α → Except TransportError β)
       (transport : ℕ → TransportResult α) (calls : ℕ),
      (invokeOnce op transport calls).1 = calls + 1)
  ∧ (∀ (lastIngestIso : String) (calls : ℕ),
      (invokeOnce (apiClient.getHealth lastIngestIso)
        (fun _ => .error .timeout) calls).2 = .ok (mockHealth lastIngestIso))
  ∧ (∀ calls : ℕ, (invokeOnce apiClient.getModels (fun _ => .error .timeout) calls).2
      = .ok mockModels)
  ∧ (∀ calls : ℕ, (invokeOnce apiClient.getMetrics (fun _ => .error .timeout) calls).2
      = .ok mockMetrics)
  ∧ (∀ calls : ℕ, (invokeOnce apiClient.getFeatures (fun _ => .error .timeout) calls).2
      = .ok mockFeatures)
  ∧ (∀ (rng : Rng) (data : PredictBody) (calls : ℕ),
      (invokeOnce (apiClient.predict rng data) (fun _ => .error .timeout) calls).2
        = .ok (mockPredictWithFeatures rng data.features))
  ∧ (∀ (rng : Rng) (params : DatasetParams) (calls : ℕ),
      (invokeOnce (apiClient.getDataset rng params) (fun _ => .error .timeout) calls).2
        = .ok (apiClient.datasetFallback rng params))
  ∧ (∀ (rng : Rng) (calls : ℕ),
      (invokeOnce (apiClient.getShapSample rng) (fun _ => .error .timeout) calls).2
        = .ok (mockShapSample rng))
  ∧ (∀ e : TransportError, apiClient.getModels (.error .timeout)
      = apiClient.getModels (.error e)) := by
  exact ⟨fun _ => rfl, rfl, fun _ _ _ _ _ => rfl, fun _ _ => rfl, fun _ => rfl,
    fun _ => rfl, fun _ => rfl, fun _ _ _ => rfl, fun _ _ _ => rfl, fun _ _ => rfl,
    fun _ => rfl⟩

/-- C7 counterexample: on two rows whose keys appear in opposite orders,
the second shipped downloadCSV variant emits the second row in the rows own
key order, 3 then 4, while the claimed header-order emission would give 4
then 3. -/
theorem downloadCSVSecond_own_order :
    downloadCSVSecond (some [[("a", "1"), ("b", "2")], [("b", "3"), ("a", "4")]]) "f.csv"
      = .ok [.download "f.csv" ("a,b" ++ "\n" ++ "1,2" ++ "\n" ++ "3,4")]
  ∧ csvOf [[("a", "1"), ("b", "2")], [("b", "3"), ("a", "4")]]
      = "a,b" ++ "\n" ++ "1,2" ++ "\n" ++ "4,3"
  ∧ ("a,b" ++ "\n" ++ "1,2" ++ "\n" ++ "3,4") ≠ ("a,b" ++ "\n" ++ "1,2" ++ "\n" ++ "4,3") := by
  exact ⟨rfl, rfl, by decide⟩

/-- C7 amended: for every non-empty row list the first downloadCSV variant
has a header row equal to the keys of the first row in their order, one
data line per row whose cells are read by header key in header order, so
that rows agreeing on the header keys produce identical lines whatever
their own key order or extra keys, and triggers exactly one download of
that text; the second variant instead emits each row in the rows own key
order. -/
theorem downloadCSV_header_order :
    ∀ (first : CellRow) (rest : List CellRow) (filename : String),
    csvHeaders (first :: rest) = first.map Prod.fst
  ∧ csvLines (first :: rest)
      = String.intercalate "," (first.map Prod.fst)
        :: (first :: rest).map (fun row =>
            String.intercalate "," ((first.map Prod.fst).map (lookupCell row)))
  ∧ (csvLines (first :: rest)).length = (first :: rest).length + 1
  ∧ (∀ row1 row2 : CellRow,
      (∀ h ∈ csvHeaders (first :: rest), lookupCell row1 h = lookupCell row2 h) →
      String.intercalate "," ((csvHeaders (first :: rest)).map (lookupCell row1))
        = String.intercalate "," ((csvHeaders (first :: rest)).map (lookupCell row2)))
  ∧ downloadCSV (some (first :: rest)) filename
      = .ok [.download filename (csvOf (first :: rest))]
  ∧ csvLinesSecond (first :: rest)
      = String.intercalate "," (first.map Prod.fst)
        :: (first :: rest).map (fun row => String.intercalate "," (row.map Prod.snd)) := by
  intro first rest filename
  refine ⟨rfl, rfl, by simp [csvLines], ?_, by simp [downloadCSV], rfl⟩
  intro row1 row2 hrows
  congr 1
  exact List.map_congr_left hrows

/-- C7 witness: a row with an extra key but the same header cell produces
the same data line as the plain row. -/
theorem downloadCSV_header_order_witness :
    String.intercalate "," ((csvHeaders ([("a", "1")] :: [])).map (lookupCell [("a", "5")]))
      = String.intercalate ","
          ((csvHeaders ([("a", "1")] :: [])).map (lookupCell [("a", "5"), ("b", "9")])) := by
  exact (downloadCSV_header_order [("a", "1")] [] "x.csv").2.2.2.1
    [("a", "5")] [("a", "5"), ("b", "9")] (by decide)

/-- C8: the substitute prediction carries one SHAP entry per input record
entry, with feature name and value copied in order from the input, while
the predicted class and probability triple do not depend on the random
draws. -/
theorem mockPredict_shap_matches_input :
    ∀ (rng rng2 : Rng) (f : FeatureRecord),
    ((mockPredictWithFeatures rng f).shap).map
        (fun l => l.map fun e => (e.feature, e.value)) = some f
  ∧ ((mockPredictWithFeatures rng f).shap).map
        (fun l => l.map ShapEntry.feature) = some (f.map Prod.fst)
  ∧ (mockPredictWithFeatures rng f).prediction
      = (mockPredictWithFeatures rng2 f).prediction
  ∧ (mockPredictWithFeatures rng f).probabilities
      = (mockPredictWithFeatures rng2 f).probabilities := by
  intro rng rng2 f
  refine ⟨?_, ?_, rfl, rfl⟩
  · simp [mockPredictWithFeatures, List.map_map, Function.comp]
    exact List.enum_map_snd f
  · simp only [mockPredictWithFeatures, Option.map_some', List.map_map]
    conv_rhs => rw [← List.enum_map_snd f, List.map_map]
    rfl

/-- C9: the getDataset fallback ignores page, limit and search entirely:
with no mission it resolves with all 100 mock rows and total 100, with a
mission it resolves with the mission-filtered mock rows and total equal to
the filtered length, identically for any paging parameters. -/
theorem getDataset_fallback_ignores_paging :
    ∀ (rng : Rng) (m : Mission) (page limit page2 limit2 : Option ℕ)
      (search search2 : Option String) (e : TransportError),
    apiClient.getDataset rng ⟨none, page, limit, search⟩ (.error e)
      = .ok { rows := (mockDataset rng).rows, total := 100, classCounts := none }
  ∧ apiClient.getDataset rng ⟨some m, page, limit, search⟩ (.error e)
      = .ok { rows := (mockDataset rng).rows.filter (fun row => row.mission = m)
            , total := ((mockDataset rng).rows.filter (fun row => row.mission = m)).length
            , classCounts := none }
  ∧ apiClient.getDataset rng ⟨none, page, limit, search⟩ (.error e)
      = apiClient.getDataset rng ⟨none, page2, limit2, search2⟩ (.error e)
  ∧ apiClient.getDataset rng ⟨some m, page, limit, search⟩ (.error e)
      = apiClient.getDataset rng ⟨some m, page2, limit2, search2⟩ (.error e)
  ∧ (mockDataset rng).rows.length = 100 := by
  intro rng m page limit page2 limit2 search search2 e
  refine ⟨?_, rfl, rfl, rfl, by simp [mockDataset, mockRows]⟩
  simp [apiClient.getDataset, apiClient.datasetFallback, handleApiError, mockDataset, mockRows]

/-- C10: calling the guarded downloadCSV variant with null, undefined or an
empty list resolves without throwing and triggers no download at all. -/
theorem downloadCSV_empty_noop :
    ∀ filename : String,
    downloadCSV none filename = .ok [] ∧ downloadCSV (some []) filename = .ok [] := by
  intro filename
  exact ⟨rfl, rfl⟩
